import Mathlib

/-
Shallow embedding of the FOOM reward/simulation core
(src/services/rewardsEngine.ts and src/services/savingsSim.ts).

Modelling conventions:
- JavaScript numbers are modelled as exact rationals. Math.floor is Int.floor,
  Math.ceil is Int.ceil, Math.round x is the floor of x + 1/2 (JS rounds half
  toward positive infinity).
- The investment-projection function is additionally modelled over JNum, a
  JavaScript-number model with NaN and signed infinities, because the claims
  about it concern NaN propagation from division by a zero monthly rate.
- Calls to Date.now() inside the source are modelled as an explicit leading
  `now` parameter.
- User-facing message strings are modelled as tagged values carrying their
  numeric payload; the literal text is not load-bearing for any claim.
-/

namespace Foom

/-- CONSTANTS.TOKENS_PER_HOUR_SAVED from src/utils/constants.ts. -/
def TOKENS_PER_HOUR_SAVED : ℚ := 10

/-- CONSTANTS.DAILY_SCREEN_TIME_GOAL_HOURS from src/utils/constants.ts. -/
def DAILY_SCREEN_TIME_GOAL_HOURS : ℚ := 8

/-- CONSTANTS.KES_PER_TOKEN from src/utils/constants.ts (0.1 KES per token). -/
def KES_PER_TOKEN : ℚ := 1 / 10

/-- CONSTANTS.TIME.HOUR in milliseconds. -/
def TIME.HOUR : ℚ := 60 * 60 * 1000

/-- CONSTANTS.TIME.DAY in milliseconds. -/
def TIME.DAY : ℚ := 24 * 60 * 60 * 1000

/-! ## Rewards engine (src/services/rewardsEngine.ts) -/

namespace RewardsEngine

/-- The `type` discriminator of a RewardBreakdown entry. -/
inductive BreakdownType where
  | base
  | streak
  | milestone
  | challenge
deriving DecidableEq

/-- One entry of the reward breakdown. The `description` string of the source
carries no data beyond what the other fields determine and is elided. -/
structure RewardBreakdown where
  type : BreakdownType
  tokens : ℤ
deriving DecidableEq

/-- Result record of calculateDailyReward. -/
structure RewardCalculation where
  tokensEarned : ℤ
  hoursUnderGoal : ℚ
  dailyGoalMet : Bool
  streakBonus : ℤ
  totalReward : ℤ
  breakdown : List RewardBreakdown
deriving DecidableEq

/-- calculateStreakBonus from rewardsEngine.ts lines 100-111. -/
def calculateStreakBonus (currentStreak : ℤ) (goalMet : Bool) : ℤ :=
  if goalMet = false ∨ currentStreak < 2 then 0
  else if 30 ≤ currentStreak then 50
  else if 21 ≤ currentStreak then 35
  else if 14 ≤ currentStreak then 25
  else if 7 ≤ currentStreak then 15
  else if 3 ≤ currentStreak then 5
  else 2

/-- calculateMilestoneBonus from rewardsEngine.ts lines 116-123. -/
def calculateMilestoneBonus (screenTimeHours goalHours : ℚ) : ℤ :=
  let percentageUnderGoal := (goalHours - screenTimeHours) / goalHours * 100
  if 50 ≤ percentageUnderGoal then 20
  else if 25 ≤ percentageUnderGoal then 10
  else 0

/-- calculateDailyReward from rewardsEngine.ts lines 42-95. The source builds
the breakdown by pushing each positive component and accumulating the same
components into totalTokens. -/
def calculateDailyReward (screenTimeMs goalHours : ℚ) (currentStreak : ℤ) :
    RewardCalculation :=
  let screenTimeHours := screenTimeMs / TIME.HOUR
  let hoursUnderGoal := max 0 (goalHours - screenTimeHours)
  let dailyGoalMet : Bool := decide (screenTimeHours ≤ goalHours)
  let baseTokens : ℤ := ⌊hoursUnderGoal * TOKENS_PER_HOUR_SAVED⌋
  let streakBonus := calculateStreakBonus currentStreak dailyGoalMet
  let milestoneBonus := calculateMilestoneBonus screenTimeHours goalHours
  let breakdown : List RewardBreakdown :=
    (if 0 < baseTokens then [⟨.base, baseTokens⟩] else [])
      ++ (if 0 < streakBonus then [⟨.streak, streakBonus⟩] else [])
      ++ (if 0 < milestoneBonus then [⟨.milestone, milestoneBonus⟩] else [])
  let totalTokens :=
    (if 0 < baseTokens then baseTokens else 0)
      + (if 0 < streakBonus then streakBonus else 0)
      + (if 0 < milestoneBonus then milestoneBonus else 0)
  ⟨baseTokens, hoursUnderGoal, dailyGoalMet, streakBonus, totalTokens, breakdown⟩

/-- The performance classification of calculateWeeklyPerformance. -/
inductive Performance where
  | excellent
  | good
  | needs_improvement
deriving DecidableEq

/-- The streakData record of calculateWeeklyPerformance. -/
structure WeeklyStreak where
  currentStreak : ℕ
  longestStreak : ℕ
  weeklyGoalsMet : ℕ
deriving DecidableEq

/-- Result record of calculateWeeklyPerformance. -/
structure WeeklyPerformance where
  totalTokensEarned : ℤ
  averageScreenTime : ℚ
  goalsMetCount : ℕ
  streakData : WeeklyStreak
  performance : Performance
deriving DecidableEq

/-- Loop state of the for-loop in calculateWeeklyPerformance: the mutable
variables totalTokens, goalsMetCount, tempStreak, longestStreak. -/
structure WeeklyAcc where
  totalTokens : ℤ
  goalsMetCount : ℕ
  tempStreak : ℕ
  longestStreak : ℕ
deriving DecidableEq

/-- One iteration of the loop in calculateWeeklyPerformance lines 163-174:
the reward of the day is computed from tempStreak before the update; on a
goal-met day tempStreak increments and longestStreak takes the running max;
on a missed day tempStreak resets to 0. -/
def weeklyStep (acc : WeeklyAcc) (screenTimeMs : ℚ) : WeeklyAcc :=
  let reward :=
    calculateDailyReward screenTimeMs DAILY_SCREEN_TIME_GOAL_HOURS
      (acc.tempStreak : ℤ)
  if reward.dailyGoalMet then
    ⟨acc.totalTokens + reward.totalReward, acc.goalsMetCount + 1,
      acc.tempStreak + 1, max acc.longestStreak (acc.tempStreak + 1)⟩
  else
    ⟨acc.totalTokens + reward.totalReward, acc.goalsMetCount, 0,
      acc.longestStreak⟩

/-- calculateWeeklyPerformance from rewardsEngine.ts lines 140-198. -/
def calculateWeeklyPerformance (dailyScreenTimes : List ℚ) : WeeklyPerformance :=
  if dailyScreenTimes = [] then
    ⟨0, 0, 0, ⟨0, 0, 0⟩, .needs_improvement⟩
  else
    let acc := dailyScreenTimes.foldl weeklyStep ⟨0, 0, 0, 0⟩
    let averageScreenTime := dailyScreenTimes.sum / (dailyScreenTimes.length : ℚ)
    let goalPercentage := (acc.goalsMetCount : ℚ) / (dailyScreenTimes.length : ℚ)
    let performance : Performance :=
      if 8 / 10 ≤ goalPercentage then .excellent
      else if 5 / 10 ≤ goalPercentage then .good
      else .needs_improvement
    ⟨acc.totalTokens, averageScreenTime, acc.goalsMetCount,
      ⟨acc.tempStreak, acc.longestStreak, acc.goalsMetCount⟩, performance⟩

/-- Whether a day with the given screen time meets the fixed weekly-loop goal:
this is exactly the dailyGoalMet field computed by calculateDailyReward for
that day (it does not depend on the streak argument). -/
def goalMetDay (screenTimeMs : ℚ) : Bool :=
  decide (screenTimeMs / TIME.HOUR ≤ DAILY_SCREEN_TIME_GOAL_HOURS)

/-- Streak value reached after processing a list of days starting from streak
s: increments on each goal-met day, resets to 0 on each missed day. -/
def streakFrom (s : ℕ) (l : List ℚ) : ℕ :=
  l.foldl (fun s d => if goalMetDay d then s + 1 else 0) s

/-- Streak value reached after processing a list of days starting from 0. -/
def streakAfter (l : List ℚ) : ℕ := streakFrom 0 l

end RewardsEngine

/-! ## Savings simulator (src/services/savingsSim.ts) -/

namespace SavingsSimulator

/-- SavingsGoal from src/store/walletStore.ts. -/
structure SavingsGoal where
  id : String
  name : String
  targetAmount : ℚ
  currentAmount : ℚ
  targetDate : ℚ
  isActive : Bool
  createdAt : ℚ
deriving DecidableEq

/-- Tags for the recommendation strings pushed by calculateSavingsProjection,
in source order; the additional-monthly-needed message carries its amount. -/
inductive Recommendation where
  | extendTargetDateOrReduceGoal
  | additionalMonthlyNeeded (amountKES : ℚ)
  | reduceScreenTimeMore
  | investInMMFs
deriving DecidableEq

/-- Result record of calculateSavingsProjection. -/
structure SavingsProjection where
  timeToGoal : ℤ
  monthlyRequired : ℚ
  weeklyRequired : ℚ
  dailyRequired : ℚ
  feasible : Bool
  recommendations : List Recommendation
deriving DecidableEq

/-- calculateSavingsProjection from savingsSim.ts lines 35-83. The Date.now()
read of the source is the explicit `now` parameter. -/
def calculateSavingsProjection (now currentSavings goalAmount targetDate
    averageDailyTokens : ℚ) : SavingsProjection :=
  let daysToGoal : ℤ := max 1 ⌈(targetDate - now) / TIME.DAY⌉
  let amountNeeded := max 0 (goalAmount - currentSavings)
  let dailyKESFromTokens := averageDailyTokens * KES_PER_TOKEN
  let monthlyKESFromTokens := dailyKESFromTokens * 30
  let dailyRequired := amountNeeded / (daysToGoal : ℚ)
  let weeklyRequired := dailyRequired * 7
  let monthlyRequired := dailyRequired * 30
  let feasibleWithTokensOnly : Bool := decide (monthlyRequired ≤ monthlyKESFromTokens)
  let feasible : Bool := feasibleWithTokensOnly || decide (monthlyRequired ≤ 10000)
  let recommendations : List Recommendation :=
    (if feasible then [] else [.extendTargetDateOrReduceGoal])
      ++ (if monthlyKESFromTokens < monthlyRequired then
            [.additionalMonthlyNeeded (monthlyRequired - monthlyKESFromTokens)]
          else [])
      ++ (if averageDailyTokens < 30 then [.reduceScreenTimeMore] else [])
      ++ [.investInMMFs]
  ⟨daysToGoal, monthlyRequired, weeklyRequired, dailyRequired, feasible,
    recommendations⟩

/-- Result record of calculateScreenTimeToSavings. -/
structure ScreenTimeToSavings where
  currentDailyScreenTime : ℚ
  targetDailyScreenTime : ℚ
  dailyTokensPotential : ℚ
  monthlyTokensPotential : ℚ
  monthlyKESEquivalent : ℚ
  annualSavingsPotential : ℚ
deriving DecidableEq

/-- calculateScreenTimeToSavings from savingsSim.ts lines 127-154. -/
def calculateScreenTimeToSavings (currentScreenTimeHours targetScreenTimeHours
    dailyGoalHours : ℚ) : ScreenTimeToSavings :=
  let currentHoursUnderGoal := max 0 (dailyGoalHours - currentScreenTimeHours)
  let currentDailyTokens := currentHoursUnderGoal * TOKENS_PER_HOUR_SAVED
  let targetHoursUnderGoal := max 0 (dailyGoalHours - targetScreenTimeHours)
  let targetDailyTokens := targetHoursUnderGoal * TOKENS_PER_HOUR_SAVED
  let dailyTokensPotential := max 0 (targetDailyTokens - currentDailyTokens)
  let monthlyTokensPotential := dailyTokensPotential * 30
  let monthlyKESEquivalent := monthlyTokensPotential * KES_PER_TOKEN
  let annualSavingsPotential := monthlyKESEquivalent * 12
  ⟨currentScreenTimeHours, targetScreenTimeHours, dailyTokensPotential,
    monthlyTokensPotential, monthlyKESEquivalent, annualSavingsPotential⟩

/-- Priority classification used by calculateOptimalAllocation. -/
inductive Priority where
  | high
  | medium
  | low
deriving DecidableEq

/-- The priorityOrder table of the sort comparator. -/
def priorityOrder : Priority → ℕ
  | .high => 0
  | .medium => 1
  | .low => 2

/-- An active goal enriched with urgency, completion and priority, as built by
the map at savingsSim.ts lines 286-297 (the object-spread copy of the goal is
modelled as the nested `goal` field). -/
structure PGoal where
  goal : SavingsGoal
  urgency : ℚ
  completion : ℚ
  priority : Priority
deriving DecidableEq

/-- The sort comparator at savingsSim.ts lines 298-305, as a boolean
less-or-equal relation: priority order first, then ascending urgency. -/
def goalLE (a b : PGoal) : Bool :=
  if priorityOrder a.priority ≠ priorityOrder b.priority then
    decide (priorityOrder a.priority < priorityOrder b.priority)
  else
    decide (a.urgency ≤ b.urgency)

/-- One entry of the returned allocation list. -/
structure AllocationEntry where
  goalId : String
  goalName : String
  recommendedTokens : ℤ
  recommendedKES : ℚ
  priority : Priority
deriving DecidableEq

/-- State of the allocation loop: the mutable remainingKES and
totalAllocatedTokens together with the entries built so far. -/
structure AllocationState where
  remainingKES : ℚ
  totalAllocatedTokens : ℤ
  entries : List AllocationEntry
deriving DecidableEq

/-- Result record of calculateOptimalAllocation. -/
structure AllocationResult where
  allocation : List AllocationEntry
  remainingTokens : ℚ
  totalAllocated : ℤ
deriving DecidableEq

/-- Body of the allocation map at savingsSim.ts lines 311-337: allocate
min(remaining budget, monthly need), raise to half the need for starved
high-priority goals, re-quantize to whole tokens, then decrement the budget. -/
def allocStep (st : AllocationState) (pg : PGoal) : AllocationState :=
  let amountNeeded := pg.goal.targetAmount - pg.goal.currentAmount
  let timeRemainingDays := max 1 pg.urgency
  let monthlyNeed := amountNeeded / timeRemainingDays * 30
  let recommendedKES0 := min st.remainingKES monthlyNeed
  let recommendedKES1 :=
    if pg.priority = .high ∧ recommendedKES0 < monthlyNeed * (3 / 10) then
      min st.remainingKES (monthlyNeed * (1 / 2))
    else recommendedKES0
  let recommendedTokens : ℤ := ⌊recommendedKES1 / KES_PER_TOKEN⌋
  let recommendedKES := (recommendedTokens : ℚ) * KES_PER_TOKEN
  ⟨st.remainingKES - recommendedKES, st.totalAllocatedTokens + recommendedTokens,
    st.entries ++ [⟨pg.goal.id, pg.goal.name, recommendedTokens, recommendedKES,
      pg.priority⟩]⟩

/-- The prioritizedGoals pipeline of calculateOptimalAllocation, savingsSim.ts
lines 284-305: keep active goals, enrich each with urgency, completion and
priority, and sort by the comparator. Array.prototype.sort is stable (ES2019)
and the comparator is a total preorder, so its result is the unique stable
sort of the list; it is modelled by the stable insertion sort over the
comparator relation. -/
def prioritize (now : ℚ) (savingsGoals : List SavingsGoal) : List PGoal :=
  List.insertionSort (fun a b => goalLE a b = true)
    ((savingsGoals.filter (fun g => g.isActive)).map fun g =>
      let urgency := (g.targetDate - now) / TIME.DAY
      let completion := g.currentAmount / g.targetAmount
      let priority : Priority :=
        if urgency < 30 ∧ completion < 8 / 10 then .high
        else if urgency < 90 ∨ 8 / 10 < completion then .medium
        else .low
      PGoal.mk g urgency completion priority)

/-- calculateOptimalAllocation from savingsSim.ts lines 261-344. The Date.now()
read of the source is the explicit `now` parameter. Entries whose allocation
rounds to zero tokens (or negative) are filtered from the returned list, but
their tokens still entered totalAllocatedTokens, exactly as in the source. -/
def calculateOptimalAllocation (now monthlyTokens : ℚ)
    (savingsGoals : List SavingsGoal) : AllocationResult :=
  if savingsGoals = [] then
    ⟨[], monthlyTokens, 0⟩
  else
    let prioritizedGoals := prioritize now savingsGoals
    let monthlyKES := monthlyTokens * KES_PER_TOKEN
    let final := prioritizedGoals.foldl allocStep ⟨monthlyKES, 0, []⟩
    ⟨final.entries.filter (fun a => 0 < a.recommendedTokens),
      monthlyTokens - (final.totalAllocatedTokens : ℚ),
      final.totalAllocatedTokens⟩

end SavingsSimulator

/-! ### JavaScript-number model for the investment projection

calculateInvestmentProjection divides by the monthly rate, so the claims about
it concern NaN and infinity propagation. JNum models an IEEE double whose
finite values are exact rationals. The model has a single (positive) zero;
negative-zero sign distinctions are never exercised by the theorems below.
Exponentiation is modelled for integral exponents, the only exponents at which
the theorems evaluate it; at a non-integral exponent the JS value is in
general irrational, hence unrepresentable here, and the model returns nan. -/

/-- JavaScript number: finite rational, infinities, or NaN. -/
inductive JNum where
  | fin : ℚ → JNum
  | posinf : JNum
  | neginf : JNum
  | nan : JNum
deriving DecidableEq

namespace JNum

/-- IEEE addition. -/
def add : JNum → JNum → JNum
  | nan, _ => nan
  | _, nan => nan
  | fin a, fin b => fin (a + b)
  | fin _, posinf => posinf
  | fin _, neginf => neginf
  | posinf, fin _ => posinf
  | neginf, fin _ => neginf
  | posinf, posinf => posinf
  | neginf, neginf => neginf
  | posinf, neginf => nan
  | neginf, posinf => nan

/-- IEEE negation. -/
def neg : JNum → JNum
  | fin a => fin (-a)
  | posinf => neginf
  | neginf => posinf
  | nan => nan

/-- IEEE subtraction. -/
def sub (a b : JNum) : JNum := a.add b.neg

/-- IEEE multiplication. -/
def mul : JNum → JNum → JNum
  | nan, _ => nan
  | _, nan => nan
  | fin a, fin b => fin (a * b)
  | fin a, posinf => if a = 0 then nan else if 0 < a then posinf else neginf
  | fin a, neginf => if a = 0 then nan else if 0 < a then neginf else posinf
  | posinf, fin b => if b = 0 then nan else if 0 < b then posinf else neginf
  | neginf, fin b => if b = 0 then nan else if 0 < b then neginf else posinf
  | posinf, posinf => posinf
  | posinf, neginf => neginf
  | neginf, posinf => neginf
  | neginf, neginf => posinf

/-- IEEE division with an unsigned zero: 0/0 is nan, a nonzero finite value
divided by zero is a sign-matching infinity (the divisor zero taken as +0). -/
def div : JNum → JNum → JNum
  | nan, _ => nan
  | _, nan => nan
  | fin a, fin b =>
    if b = 0 then (if a = 0 then nan else if 0 < a then posinf else neginf)
    else fin (a / b)
  | fin _, posinf => fin 0
  | fin _, neginf => fin 0
  | posinf, fin b => if 0 ≤ b then posinf else neginf
  | neginf, fin b => if 0 ≤ b then neginf else posinf
  | posinf, _ => nan
  | neginf, _ => nan

/-- JS exponentiation, on the integral exponents the development evaluates;
nan outside that domain (see the section comment). -/
def pow : JNum → JNum → JNum
  | fin a, fin b =>
    if b.den = 1 then
      if 0 ≤ b.num then fin (a ^ b.num.toNat)
      else if a = 0 then posinf
      else fin ((a ^ (-b.num).toNat)⁻¹)
    else nan
  | _, _ => nan

/-- JS Math.round: round half toward positive infinity. -/
def round : JNum → JNum
  | fin a => fin ⌊a + 1 / 2⌋
  | posinf => posinf
  | neginf => neginf
  | nan => nan

/-- IEEE strict less-than; false whenever an operand is nan. -/
def lt : JNum → JNum → Bool
  | nan, _ => false
  | _, nan => false
  | fin a, fin b => decide (a < b)
  | fin _, posinf => true
  | neginf, fin _ => true
  | neginf, posinf => true
  | posinf, _ => false
  | _, neginf => false

end JNum

namespace SavingsSimulator

/-- Result record of calculateInvestmentProjection, over the JNum model. -/
structure InvestmentProjection where
  principal : JNum
  projectedValue : JNum
  totalReturn : JNum
  returnPercentage : JNum
  timeHorizon : JNum
  monthlyContribution : JNum
deriving DecidableEq

/-- calculateInvestmentProjection from savingsSim.ts lines 88-122, over the
JNum model: the recurring-contribution branch divides the annuity numerator by
monthlyRate with no special case for a zero rate. -/
def calculateInvestmentProjection (principal annualRate timeHorizonDays
    monthlyContribution : JNum) : InvestmentProjection :=
  let years := timeHorizonDays.div (.fin 365)
  let monthlyRate := (annualRate.div (.fin 100)).div (.fin 12)
  let months := timeHorizonDays.div (.fin 30)
  let projectedValue :=
    if JNum.lt (.fin 0) monthlyContribution then
      let annuityFV :=
        monthlyContribution.mul
          ((((JNum.fin 1).add monthlyRate).pow months |>.sub (.fin 1)).div
            monthlyRate)
      let principalFV := principal.mul (((JNum.fin 1).add monthlyRate).pow months)
      principalFV.add annuityFV
    else
      principal.mul (((JNum.fin 1).add (annualRate.div (.fin 100))).pow years)
  let totalReturn := (projectedValue.sub principal).sub (monthlyContribution.mul months)
  let returnPercentage := ((projectedValue.sub principal).div principal).mul (.fin 100)
  ⟨principal, projectedValue.round, totalReturn.round,
    ((returnPercentage.mul (.fin 100)).round).div (.fin 100), timeHorizonDays,
    monthlyContribution⟩

end SavingsSimulator

/-! ## Theorems -/

namespace RewardsEngine

/-- Helper: an empty day list leaves the running streak unchanged. -/
theorem streakFrom_nil (s : ℕ) : streakFrom s [] = s := rfl

/-- Helper: one day of the streak recursion. -/
theorem streakFrom_cons (s : ℕ) (d : ℚ) (l : List ℚ) :
    streakFrom s (d :: l) = streakFrom (if goalMetDay d then s + 1 else 0) l := rfl

/-- Helper: the goal-met flag computed by calculateDailyReward is goalMetDay
of the screen time, independent of the streak argument, at the weekly goal. -/
theorem dailyReward_goalMet_eq (screenTimeMs : ℚ) (currentStreak : ℤ) :
    (calculateDailyReward screenTimeMs DAILY_SCREEN_TIME_GOAL_HOURS
      currentStreak).dailyGoalMet = goalMetDay screenTimeMs := rfl

end RewardsEngine

namespace SavingsSimulator

/-- C1: the recurring-contribution branch of calculateInvestmentProjection
does not special-case a zero monthly rate: at principal 1000, annual rate 0,
horizon 30 days and monthly contribution 100 the annuity term divides zero by
zero and the projected value is NaN, not the finite limit
principal + monthlyContribution * months = 1100 that the specification
requires. -/
theorem investmentProjection_zero_rate_nan :
    (calculateInvestmentProjection (.fin 1000) (.fin 0) (.fin 30)
      (.fin 100)).projectedValue = JNum.nan := by
  norm_num [calculateInvestmentProjection, JNum.div, JNum.lt, JNum.pow,
    JNum.add, JNum.sub, JNum.neg, JNum.mul, JNum.round]

/-- C2: token conservation of calculateOptimalAllocation: for every clock
reading, every monthly token budget and every goal list,
totalAllocated + remainingTokens equals monthlyTokens exactly. -/
theorem allocation_conservation (now monthlyTokens : ℚ)
    (goals : List SavingsGoal) :
    ((calculateOptimalAllocation now monthlyTokens goals).totalAllocated : ℚ)
      + (calculateOptimalAllocation now monthlyTokens goals).remainingTokens
      = monthlyTokens := by
  unfold calculateOptimalAllocation
  split
  · simp
  · simp

/-- C4 counterexample: the simulator computes per-level daily tokens without
the floor that calculateDailyReward applies to its base reward, so at a
screen-time level of 7.95 hours against a goal of 8 the simulator sees half a
token of daily potential while the rewards engine pays 0 base tokens: the two
components do drift apart. -/
theorem screenTimeToSavings_drifts_from_base_reward :
    (calculateScreenTimeToSavings 8 (159 / 20) 8).dailyTokensPotential
      ≠ ((RewardsEngine.calculateDailyReward ((159 / 20) * TIME.HOUR) 8
          0).tokensEarned : ℚ) := by
  norm_num [calculateScreenTimeToSavings, RewardsEngine.calculateDailyReward,
    TIME.HOUR, TOKENS_PER_HOUR_SAVED]

/-- C4 amended: both components compute from the shared sub-formula
hoursUnderGoal * tokensPerHour, but the rewards engine floors the product and
the simulator does not: the engine base reward is the floor of
max 0 (g - h) * rate while the simulator daily potential is the unfloored
difference of the per-level products, so they agree only when the products
are integers. -/
theorem screenTimeToSavings_base_formula (h g currentH targetH : ℚ) (s : ℤ) :
    (RewardsEngine.calculateDailyReward (h * TIME.HOUR) g s).tokensEarned
      = ⌊max 0 (g - h) * TOKENS_PER_HOUR_SAVED⌋
    ∧ (calculateScreenTimeToSavings currentH targetH g).dailyTokensPotential
        = max 0 (max 0 (g - targetH) * TOKENS_PER_HOUR_SAVED
            - max 0 (g - currentH) * TOKENS_PER_HOUR_SAVED) := by
  constructor
  · have hH : h * TIME.HOUR / TIME.HOUR = h := by
      rw [mul_div_assoc, div_self (by norm_num [TIME.HOUR]), mul_one]
    simp [RewardsEngine.calculateDailyReward, hH]
  · rfl

end SavingsSimulator

namespace RewardsEngine

/-- C5 counterexample: a negative screen time is not treated as 0-effect: at
screen time minus one hour and goal 8 the base reward is 90 tokens, while at
screen time 0 it is 80 tokens, so the results differ. -/
theorem dailyReward_negative_not_zero_effect :
    (calculateDailyReward (-TIME.HOUR) 8 0).tokensEarned
      ≠ (calculateDailyReward 0 8 0).tokensEarned := by
  norm_num [calculateDailyReward, TIME.HOUR, TOKENS_PER_HOUR_SAVED]

/-- C5 amended: for every negative screenTime (with goalHours > 0 and any
streak) calculateDailyReward never raises (it is total) and applies no upper
clamp: the goal is met, hoursUnderGoal equals goalHours minus the negative
screen-time hours and so exceeds goalHours, and the base reward is at least
the screenTime = 0 reward; the clamp at 0 only prevents negative
hoursUnderGoal when screen time exceeds the goal. -/
theorem dailyReward_negative_screenTime (screenTimeMs goalHours : ℚ)
    (currentStreak : ℤ) (hms : screenTimeMs < 0) (hg : 0 < goalHours) :
    (calculateDailyReward screenTimeMs goalHours currentStreak).dailyGoalMet = true
    ∧ (calculateDailyReward screenTimeMs goalHours currentStreak).hoursUnderGoal
        = goalHours - screenTimeMs / TIME.HOUR
    ∧ goalHours < (calculateDailyReward screenTimeMs goalHours
        currentStreak).hoursUnderGoal
    ∧ (calculateDailyReward 0 goalHours currentStreak).tokensEarned
        ≤ (calculateDailyReward screenTimeMs goalHours
            currentStreak).tokensEarned := by
  have hH : (0:ℚ) < TIME.HOUR := by norm_num [TIME.HOUR]
  have hdiv : screenTimeMs / TIME.HOUR < 0 := div_neg_of_neg_of_pos hms hH
  have h1 : screenTimeMs / TIME.HOUR ≤ goalHours := le_of_lt (lt_trans hdiv hg)
  refine ⟨?_, ?_, ?_, ?_⟩
  · simp [calculateDailyReward, decide_eq_true_eq]
    exact h1
  · simp only [calculateDailyReward]
    rw [max_eq_right (by linarith)]
  · simp only [calculateDailyReward]
    rw [max_eq_right (by linarith)]
    linarith
  · simp only [calculateDailyReward]
    apply Int.floor_le_floor
    apply mul_le_mul_of_nonneg_right _ (by norm_num [TOKENS_PER_HOUR_SAVED])
    apply max_le_max (le_refl 0)
    rw [zero_div]
    linarith

/-- C5 amended witness: the amended statement at screen time minus one hour,
goal 8 hours, streak 0. -/
theorem dailyReward_negative_screenTime_witness :
    (calculateDailyReward (-3600000) 8 0).dailyGoalMet = true
    ∧ (calculateDailyReward (-3600000) 8 0).hoursUnderGoal
        = 8 - (-3600000) / TIME.HOUR
    ∧ (8:ℚ) < (calculateDailyReward (-3600000) 8 0).hoursUnderGoal
    ∧ (calculateDailyReward 0 8 0).tokensEarned
        ≤ (calculateDailyReward (-3600000) 8 0).tokensEarned :=
  dailyReward_negative_screenTime (-3600000) 8 0 (by norm_num) (by norm_num)

/-- C7: calculateStreakBonus pays 0 when the goal is missed or the streak is
below 2, and otherwise pays the highest threshold met from the fixed tier
table (30 days pays 50, 21 pays 35, 14 pays 25, 7 pays 15, 3 pays 5, exactly
2 pays 2), including the three concrete cases of the specification. -/
theorem streakBonus_tiers (s : ℤ) (m : Bool) :
    ((m = false ∨ s < 2) → calculateStreakBonus s m = 0)
    ∧ (m = true → 30 ≤ s → calculateStreakBonus s m = 50)
    ∧ (m = true → 21 ≤ s → s < 30 → calculateStreakBonus s m = 35)
    ∧ (m = true → 14 ≤ s → s < 21 → calculateStreakBonus s m = 25)
    ∧ (m = true → 7 ≤ s → s < 14 → calculateStreakBonus s m = 15)
    ∧ (m = true → 3 ≤ s → s < 7 → calculateStreakBonus s m = 5)
    ∧ (m = true → s = 2 → calculateStreakBonus s m = 2)
    ∧ calculateStreakBonus 7 true = 15
    ∧ calculateStreakBonus 1 true = 0
    ∧ calculateStreakBonus 30 false = 0 := by
  cases m <;>
    refine ⟨?_, ?_, ?_, ?_, ?_, ?_, ?_, by decide, by decide, by decide⟩ <;>
    intros <;> unfold calculateStreakBonus <;> split_ifs <;> simp_all <;> omega

/-- C7 witness: the 30-day tier of the theorem applied at streak 35 with the
goal met. -/
theorem streakBonus_tiers_witness : calculateStreakBonus 35 true = 50 :=
  (streakBonus_tiers 35 true).2.1 rfl (by norm_num)

/-- C8: for nonnegative screen time and a positive goal, the total reward of
calculateDailyReward is the sum of the tokens of all breakdown entries, and
dailyGoalMet holds exactly when the screen-time hours are at most the goal. -/
theorem dailyReward_invariants (screenTimeMs goalHours : ℚ) (currentStreak : ℤ)
    (h0 : 0 ≤ screenTimeMs) (hg : 0 < goalHours) :
    (((calculateDailyReward screenTimeMs goalHours currentStreak).breakdown.map
        (fun b => b.tokens)).sum
      = (calculateDailyReward screenTimeMs goalHours currentStreak).totalReward)
    ∧ ((calculateDailyReward screenTimeMs goalHours
          currentStreak).dailyGoalMet = true
        ↔ screenTimeMs / TIME.HOUR ≤ goalHours) := by
  constructor
  · simp only [calculateDailyReward]
    split_ifs <;> simp <;> try ring
  · simp [calculateDailyReward, decide_eq_true_eq]

/-- C8 witness: the invariants at screen time 0, goal 8, streak 0. -/
theorem dailyReward_invariants_witness :
    (((calculateDailyReward 0 8 0).breakdown.map (fun b => b.tokens)).sum
      = (calculateDailyReward 0 8 0).totalReward)
    ∧ ((calculateDailyReward 0 8 0).dailyGoalMet = true
        ↔ (0:ℚ) / TIME.HOUR ≤ 8) :=
  dailyReward_invariants 0 8 0 (le_refl 0) (by norm_num)

end RewardsEngine

namespace SavingsSimulator

/-- Helper: the two middle Priority constructors are distinct; lets simp
discharge the high-priority test on a medium-priority goal. -/
theorem medium_ne_high : Priority.medium ≠ Priority.high := by decide

/-- C6 counterexample: with a zero budget, both parts of the claim fail on an
active overshot goal followed by an active needy goal. The overshot goal
(currentAmount 200 above targetAmount 100, due now) has monthly need -3000
KES and is allocated -30000 tokens, refunding 3000 KES of budget; the needy
goal (targetAmount 100, nothing saved, due in 50 days) then receives
min(3000, 60) = 60 KES, a kept entry of 600 tokens. So the allocation list is
non-empty and remainingTokens is 29400, not 0. -/
theorem allocation_zero_budget_overshoot :
    (calculateOptimalAllocation 0 0
      [⟨"g1", "Overshot", 100, 200, 0, true, 0⟩,
       ⟨"g2", "Needy", 100, 0, 50 * TIME.DAY, true, 0⟩]).allocation ≠ []
    ∧ (calculateOptimalAllocation 0 0
      [⟨"g1", "Overshot", 100, 200, 0, true, 0⟩,
       ⟨"g2", "Needy", 100, 0, 50 * TIME.DAY, true, 0⟩]).remainingTokens
      ≠ 0 := by
  norm_num [calculateOptimalAllocation, prioritize, allocStep, goalLE,
    List.insertionSort, List.orderedInsert, KES_PER_TOKEN, TIME.DAY,
    priorityOrder, medium_ne_high]
  constructor <;> rw [if_neg (List.cons_ne_nil _ _)] <;> simp

/-- Helper: with no remaining budget, a goal that is not overshot receives a
zero allocation and leaves the loop state unchanged apart from a zero-token
entry. -/
theorem allocStep_remaining_zero (st : AllocationState) (pg : PGoal)
    (h1 : st.remainingKES = 0)
    (h2 : pg.goal.currentAmount ≤ pg.goal.targetAmount) :
    allocStep st pg = ⟨0, st.totalAllocatedTokens,
      st.entries ++ [⟨pg.goal.id, pg.goal.name, 0, 0, pg.priority⟩]⟩ := by
  have hT : (0:ℚ) < max 1 pg.urgency :=
    lt_of_lt_of_le one_pos (le_max_left 1 pg.urgency)
  have hN : (0:ℚ) ≤ (pg.goal.targetAmount - pg.goal.currentAmount)
      / max 1 pg.urgency * 30 := by
    apply mul_nonneg _ (by norm_num)
    exact div_nonneg (by linarith) hT.le
  simp only [allocStep, h1]
  rw [min_eq_left hN]
  split_ifs with hc
  · rw [min_eq_left (by linarith)]
    norm_num [KES_PER_TOKEN]
  · norm_num [KES_PER_TOKEN]

/-- Helper: the allocation loop started with no remaining budget over goals
none of which is overshot allocates nothing: the budget stays zero, the token
total is unchanged, and no positive-token entry is added. -/
theorem alloc_foldl_zero : ∀ (l : List PGoal) (st : AllocationState),
    st.remainingKES = 0 →
    (∀ pg ∈ l, pg.goal.currentAmount ≤ pg.goal.targetAmount) →
    (List.foldl allocStep st l).remainingKES = 0
    ∧ (List.foldl allocStep st l).totalAllocatedTokens
        = st.totalAllocatedTokens
    ∧ (List.foldl allocStep st l).entries.filter
          (fun a => 0 < a.recommendedTokens)
        = st.entries.filter (fun a => 0 < a.recommendedTokens)
  | [], st, h1, _ => ⟨h1, rfl, rfl⟩
  | pg :: tl, st, h1, h2 => by
    rw [List.foldl_cons,
      allocStep_remaining_zero st pg h1 (h2 pg (List.mem_cons_self pg tl))]
    obtain ⟨ih1, ih2, ih3⟩ := alloc_foldl_zero tl
      ⟨0, st.totalAllocatedTokens,
        st.entries ++ [⟨pg.goal.id, pg.goal.name, 0, 0, pg.priority⟩]⟩ rfl
      (fun g hg => h2 g (List.mem_cons_of_mem pg hg))
    refine ⟨ih1, ih2, ?_⟩
    rw [ih3]
    simp [List.filter_append]

/-- Helper: every prioritized goal comes from an active goal of the input
list. -/
theorem mem_prioritize (now : ℚ) (goals : List SavingsGoal) (pg : PGoal)
    (hpg : pg ∈ prioritize now goals) :
    pg.goal ∈ goals ∧ pg.goal.isActive = true := by
  unfold prioritize at hpg
  rw [List.mem_insertionSort] at hpg
  obtain ⟨g, hg, hEq⟩ := List.mem_map.1 hpg
  obtain ⟨hmem, hact⟩ := List.mem_filter.1 hg
  subst hEq
  exact ⟨hmem, hact⟩

/-- C6 amended: with a zero monthly token budget, provided no active goal is
overshot (currentAmount at most targetAmount), calculateOptimalAllocation
returns an empty allocation list and remainingTokens 0. An active overshot
goal breaks both parts: it is allocated negative tokens, refunding budget
that can leave remainingTokens positive and fund positive allocation entries
for later goals. -/
theorem allocation_zero_budget (now : ℚ) (goals : List SavingsGoal)
    (h : ∀ g ∈ goals, g.isActive = true → g.currentAmount ≤ g.targetAmount) :
    (calculateOptimalAllocation now 0 goals).allocation = []
    ∧ (calculateOptimalAllocation now 0 goals).remainingTokens = 0 := by
  unfold calculateOptimalAllocation
  split
  · exact ⟨rfl, rfl⟩
  · have hmem : ∀ pg ∈ prioritize now goals,
        pg.goal.currentAmount ≤ pg.goal.targetAmount := by
      intro pg hpg
      obtain ⟨hm, ha⟩ := mem_prioritize now goals pg hpg
      exact h pg.goal hm ha
    obtain ⟨h1, h2, h3⟩ := alloc_foldl_zero (prioritize now goals)
      ⟨0 * KES_PER_TOKEN, 0, []⟩ (by norm_num) hmem
    constructor
    · show (List.foldl allocStep ⟨0 * KES_PER_TOKEN, 0, []⟩
        (prioritize now goals)).entries.filter
          (fun a => 0 < a.recommendedTokens) = []
      rw [h3]
      rfl
    · show (0:ℚ) - ((List.foldl allocStep ⟨0 * KES_PER_TOKEN, 0, []⟩
        (prioritize now goals)).totalAllocatedTokens : ℚ) = 0
      rw [h2]
      norm_num

/-- C6 amended witness: the zero-budget behaviour on one active goal that is
half complete. -/
theorem allocation_zero_budget_witness :
    (calculateOptimalAllocation 0 0
      [⟨"g2", "Laptop", 100, 50, 0, true, 0⟩]).allocation = []
    ∧ (calculateOptimalAllocation 0 0
      [⟨"g2", "Laptop", 100, 50, 0, true, 0⟩]).remainingTokens = 0 :=
  allocation_zero_budget 0 [⟨"g2", "Laptop", 100, 50, 0, true, 0⟩]
    (by
      intro g hg hact
      rw [List.mem_singleton] at hg
      subst hg
      norm_num)

/-- C9 counterexample: calculateSavingsProjection reads the clock (modelled by
the explicit now parameter): with identical explicit arguments but clock
readings 30 days apart, the two runs return different timeToGoal values, so
the function depends on hidden time-varying state beyond its explicit
arguments. -/
theorem savingsProjection_clock_dependent :
    (calculateSavingsProjection 0 0 1000 (60 * TIME.DAY) 20).timeToGoal
      ≠ (calculateSavingsProjection (30 * TIME.DAY) 0 1000
          (60 * TIME.DAY) 20).timeToGoal := by
  norm_num [calculateSavingsProjection, TIME.DAY]

/-- C9 amended: two runs of calculateSavingsProjection or of
calculateOptimalAllocation with identical explicit arguments produce
identical outputs provided the hidden Date.now() readings (the now
parameter of the model) also coincide; the functions are pure in (now,
arguments), but they do read the system clock. -/
theorem core_two_run_determinism (now1 now2 currentSavings goalAmount
    targetDate averageDailyTokens monthlyTokens : ℚ)
    (goals : List SavingsGoal) (h : now1 = now2) :
    calculateSavingsProjection now1 currentSavings goalAmount targetDate
        averageDailyTokens
      = calculateSavingsProjection now2 currentSavings goalAmount targetDate
          averageDailyTokens
    ∧ calculateOptimalAllocation now1 monthlyTokens goals
        = calculateOptimalAllocation now2 monthlyTokens goals := by
  subst h
  exact ⟨rfl, rfl⟩

/-- C9 amended witness: the two-run determinism at concrete arguments with
equal clock readings. -/
theorem core_two_run_determinism_witness :
    calculateSavingsProjection 0 0 0 0 0 = calculateSavingsProjection 0 0 0 0 0
    ∧ calculateOptimalAllocation 0 0 [] = calculateOptimalAllocation 0 0 [] :=
  core_two_run_determinism 0 0 0 0 0 0 0 [] rfl

/-- C10: for every input the recommendations list of
calculateSavingsProjection is non-empty and its last element is the
invest-in-MMFs hint, which the source appends unconditionally. -/
theorem savingsProjection_mmf_hint (now currentSavings goalAmount targetDate
    averageDailyTokens : ℚ) :
    (calculateSavingsProjection now currentSavings goalAmount targetDate
        averageDailyTokens).recommendations ≠ []
    ∧ (calculateSavingsProjection now currentSavings goalAmount targetDate
        averageDailyTokens).recommendations.getLast?
      = some .investInMMFs := by
  unfold calculateSavingsProjection
  constructor
  · simp
  · simp only [← List.append_assoc]
    exact List.getLast?_concat _

end SavingsSimulator

namespace RewardsEngine

/-- Helper: one step of the weekly loop, on an explicit state tuple. -/
theorem weeklyStep_eq (t : ℤ) (g s m : ℕ) (d : ℚ) :
    weeklyStep ⟨t, g, s, m⟩ d =
      if goalMetDay d then
        ⟨t + (calculateDailyReward d DAILY_SCREEN_TIME_GOAL_HOURS
            (s : ℤ)).totalReward, g + 1, s + 1, max m (s + 1)⟩
      else
        ⟨t + (calculateDailyReward d DAILY_SCREEN_TIME_GOAL_HOURS
            (s : ℤ)).totalReward, g, 0, m⟩ := rfl

/-- Helper: closed form of the weekly loop from an arbitrary starting state:
the tokens are summed day by day with the streak of the preceding prefix fed
into each day, the goals-met counter counts goal-met days, the final streak is
the streak recursion over the whole list, and the longest streak is the
maximum of the streak values after each day. -/
theorem weekly_foldl_eq : ∀ (l : List ℚ) (t : ℤ) (g s m : ℕ),
    List.foldl weeklyStep ⟨t, g, s, m⟩ l =
      ⟨t + ((List.range l.length).map fun i =>
          (calculateDailyReward (l.getD i 0) DAILY_SCREEN_TIME_GOAL_HOURS
            (streakFrom s (l.take i) : ℤ)).totalReward).sum,
        g + l.countP goalMetDay,
        streakFrom s l,
        max m (((List.range l.length).map fun i =>
          streakFrom s (l.take (i + 1))).foldr max 0)⟩
  | [], t, g, s, m => by simp [streakFrom]
  | d :: tl, t, g, s, m => by
    rw [List.foldl_cons, weeklyStep_eq]
    by_cases h : goalMetDay d = true
    · rw [if_pos h, weekly_foldl_eq tl]
      simp only [List.length_cons, List.range_succ_eq_map, List.map_cons,
        List.map_map, List.sum_cons, List.foldr_cons, Function.comp_def,
        Nat.succ_eq_add_one, List.getD_cons_zero, List.getD_cons_succ,
        List.take_succ_cons, List.take_zero, List.countP_cons,
        streakFrom_nil, streakFrom_cons, h, if_true, WeeklyAcc.mk.injEq]
      refine ⟨by ring, by omega, trivial, by rw [max_assoc]⟩
    · rw [if_neg h, weekly_foldl_eq tl]
      have hb : goalMetDay d = false := by
        revert h
        cases goalMetDay d <;> simp
      simp only [List.length_cons, List.range_succ_eq_map, List.map_cons,
        List.map_map, List.sum_cons, List.foldr_cons, Function.comp_def,
        Nat.succ_eq_add_one, List.getD_cons_zero, List.getD_cons_succ,
        List.take_succ_cons, List.take_zero, List.countP_cons,
        streakFrom_nil, streakFrom_cons, hb, if_false, WeeklyAcc.mk.injEq,
        Bool.false_eq_true]
      refine ⟨by ring, by omega, trivial, by rw [Nat.zero_max]⟩

/-- C3: for every non-empty day sequence, calculateWeeklyPerformance feeds the
streak accumulated through day n-1 into day n of calculateDailyReward (the
total is the sum over days of the reward at the streak of the preceding
prefix), the running streak increments on goal-met days and resets to 0 on
missed days (the streakFrom recursion), the returned currentStreak is the
streak after the last day, and longestStreak is the running maximum of the
streak over the sequence. -/
theorem weekly_streak_semantics (l : List ℚ) (hne : l ≠ []) :
    (calculateWeeklyPerformance l).streakData.currentStreak = streakAfter l
    ∧ (calculateWeeklyPerformance l).streakData.longestStreak
        = ((List.range l.length).map fun i =>
            streakAfter (l.take (i + 1))).foldr max 0
    ∧ (calculateWeeklyPerformance l).totalTokensEarned
        = ((List.range l.length).map fun i =>
            (calculateDailyReward (l.getD i 0) DAILY_SCREEN_TIME_GOAL_HOURS
              (streakAfter (l.take i) : ℤ)).totalReward).sum := by
  unfold calculateWeeklyPerformance
  simp only [if_neg hne, weekly_foldl_eq, streakAfter, Nat.zero_max, zero_add]
  exact ⟨trivial, trivial, trivial⟩

/-- C3 witness: the streak semantics at the one-day sequence with screen time
zero. -/
theorem weekly_streak_semantics_witness :
    (calculateWeeklyPerformance [0]).streakData.currentStreak = streakAfter [0]
    ∧ (calculateWeeklyPerformance [0]).streakData.longestStreak
        = ((List.range (List.length [(0:ℚ)])).map fun i =>
            streakAfter (List.take (i + 1) [(0:ℚ)])).foldr max 0
    ∧ (calculateWeeklyPerformance [0]).totalTokensEarned
        = ((List.range (List.length [(0:ℚ)])).map fun i =>
            (calculateDailyReward (List.getD [(0:ℚ)] i 0)
              DAILY_SCREEN_TIME_GOAL_HOURS
              (streakAfter (List.take i [(0:ℚ)]) : ℤ)).totalReward).sum :=
  weekly_streak_semantics [0] (List.cons_ne_nil 0 [])

end RewardsEngine

end Foom
